import Mathlib

/-!
Verification of the einkframe-client-node startup and message orchestration
core.  The definitions below are a shallow embedding of the JavaScript
sources: `src/index.js` (the `Application` class), `src/config/ConfigManager.js`,
`src/mqtt/MQTTClient.js` and
`src/display/adapters/IT8951DisplayAdapter.js`.  JavaScript values that flow
through the config pipeline are modelled by an inductive `JSValue` type;
numbers are modelled as rationals (the claims under study never depend on
IEEE rounding).  The event-driven runtime is modelled by explicit state
passing: each JS handler becomes a function from state to state, and the
asynchronous render path is modelled by a start event (the adapter call is
issued) and a completion event (the adapter promise settles).
-/

namespace Einkframe

/-! ### JavaScript value model -/

/-- Model of a JavaScript value as it appears in a parsed MQTT config
payload: `undefined`, `null`, booleans, numbers (as rationals), strings and
plain objects (association lists of fields). -/
inductive JSValue where
  | undefined
  | null
  | bool (b : Bool)
  | num (q : ℚ)
  | str (s : String)
  | obj (fields : List (String × JSValue))

/-- Look up a field in an object field list (first match wins; JSON-parsed
objects have distinct keys). -/
def lookupField : List (String × JSValue) → String → Option JSValue
  | [], _ => none
  | (k', v) :: rest, k => if k' = k then some v else lookupField rest k

/-- Model of JavaScript property read `v.k`: returns `undefined` when the
field is missing or the value is not an object. -/
def getProp (v : JSValue) (k : String) : JSValue :=
  match v with
  | .obj fields => (lookupField fields k).getD .undefined
  | _ => .undefined

/-- Model of JavaScript property assignment on an object field list: update
the binding in place if the key exists, otherwise append it. -/
def setField : List (String × JSValue) → String → JSValue → List (String × JSValue)
  | [], k, v => [(k, v)]
  | (k', v') :: rest, k, v =>
    if k' = k then (k, v) :: rest else (k', v') :: setField rest k v

/-- Model of JavaScript `v.k = x`: a no-op on non-objects (the theorems only
quantify over payloads whose mutated positions are objects, matching what
`JSON.parse` can produce there). -/
def setProp (v : JSValue) (k : String) (x : JSValue) : JSValue :=
  match v with
  | .obj fields => .obj (setField fields k x)
  | other => other

/-- Model of JavaScript truthiness. -/
def truthy : JSValue → Bool
  | .undefined => false
  | .null => false
  | .bool b => b
  | .num q => q != 0
  | .str s => s != ""
  | .obj _ => true

/-- Whether a value is `undefined` (for the `!== undefined` tests). -/
def isUndefined : JSValue → Bool
  | .undefined => true
  | _ => false

/-- Model of JavaScript `v === true` (strict equality against the boolean
`true`). -/
def strictEqTrue : JSValue → Bool
  | .bool true => true
  | _ => false

/-- Own enumerable properties of a value, as used by `Object.assign`:
objects contribute their fields, strings contribute their indexed
characters, primitives contribute nothing. -/
def ownEnumerableProps : JSValue → List (String × JSValue)
  | .obj fields => fields
  | .str s => s.toList.enum.map (fun ic => (toString ic.1, JSValue.str (String.mk [ic.2])))
  | _ => []

/-- Model of `Object.assign(target, source)` on a field list target. -/
def objAssign (target : List (String × JSValue)) (source : JSValue) :
    List (String × JSValue) :=
  (ownEnumerableProps source).foldl (fun t kv => setField t kv.1 kv.2) target

/-! ### parseFloat model -/

/-- Value of a digit run read left to right. -/
def digitsToNat (ds : List Char) : Nat :=
  ds.foldl (fun n c => n * 10 + (c.toNat - '0'.toNat)) 0

/-- Model of `parseFloat` on a string: skip leading spaces, read an optional
sign and a decimal literal prefix, ignore trailing garbage; `none` models
`NaN`.  (Exponent notation is outside the payloads this development
considers.) -/
def parseLeadingDecimal (s : String) : Option ℚ :=
  let cs := s.toList.dropWhile (fun c => c = ' ')
  let sign : ℚ := match cs with
    | '-' :: _ => -1
    | _ => 1
  let cs := match cs with
    | '-' :: rest => rest
    | '+' :: rest => rest
    | _ => cs
  let intPart := cs.takeWhile Char.isDigit
  let rest := cs.dropWhile Char.isDigit
  let fracPart := match rest with
    | '.' :: rest' => rest'.takeWhile Char.isDigit
    | _ => []
  if intPart.isEmpty && fracPart.isEmpty then none
  else some (sign * ((digitsToNat intPart : ℚ) +
    (digitsToNat fracPart : ℚ) / ((10 : ℚ) ^ fracPart.length)))

/-- Model of `parseFloat` applied to a JS value: numbers pass through,
strings are parsed, everything else stringifies to non-numeric text and
yields `NaN` (`none`). -/
def parseFloatJS : JSValue → Option ℚ
  | .num q => some q
  | .str s => parseLeadingDecimal s
  | _ => none

/-! ### ConfigManager (src/config/ConfigManager.js) -/

/-- Live state of the `ConfigManager` singleton: the immutable device id,
the `display` settings object, the auto-shutdown flag and the `gpio`
settings object. -/
structure ConfigState where
  deviceId : String
  display : List (String × JSValue)
  autoShutdownEnabled : Bool
  gpio : List (String × JSValue)

/-- Initial `display` settings produced by the lazy `display` getter. -/
def initialDisplay : List (String × JSValue) :=
  [("maxBufferSize", .num 32797), ("align4Bytes", .bool true),
   ("vcom", .num 2270), ("bpp", .num 4), ("brightness", .num 1)]

/-- Model of `ConfigManager.updateConfig(configData)`:
`Object.assign` the `display` object when a truthy `display` field is
present, set `autoShutdown.enabled` to `configData.autoShutdown === true`
when the `autoShutdown` field is not `undefined`, and `Object.assign` the
`gpio` object when a truthy `gpio` field is present. -/
def updateConfig (cs : ConfigState) (configData : JSValue) : ConfigState :=
  let cs1 :=
    if truthy (getProp configData "display") then
      { cs with display := objAssign cs.display (getProp configData "display") }
    else cs
  let cs2 :=
    if isUndefined (getProp configData "autoShutdown") then cs1
    else { cs1 with
      autoShutdownEnabled := strictEqTrue (getProp configData "autoShutdown") }
  if truthy (getProp configData "gpio") then
    { cs2 with gpio := objAssign cs2.gpio (getProp configData "gpio") }
  else cs2

/-- The stored brightness value of a config state. -/
def storedBrightness (cs : ConfigState) : JSValue :=
  (lookupField cs.display "brightness").getD .undefined

/-! ### Application (src/index.js) -/

/-- A rendering asset payload (the raw message bytes). -/
abbrev Payload := List Nat

/-- State of the `Application` instance together with the module-level
image buffer of `index.js` and an observation of the render path: `inFlight`
is the queue of adapter renders that have been started but whose promise has
not yet settled, `rendered` the list of successfully completed renders. -/
structure AppState where
  displayInitialized : Bool
  imageProcessed : Bool
  configProcessed : Bool
  shuttingDown : Bool
  mqttClientPresent : Bool
  mqttConnected : Bool
  bufferedImage : Option Payload
  config : ConfigState
  inFlight : List Payload
  rendered : List Payload

namespace App

/-- Model of `Application.shutdownSystem`: the latch check and set; the
returned boolean records whether the body past the latch ran (the shutdown
sequence was scheduled). -/
def shutdownSystem (s : AppState) : AppState × Bool :=
  if s.shuttingDown then (s, false)
  else ({ s with shuttingDown := true }, true)

/-- Model of `Application.checkAutoShutdown`: bail out unless the MQTT
client exists and is connected, then fire `shutdownSystem` when the image
and config have been processed and the auto-shutdown flag is set. -/
def checkAutoShutdown (s : AppState) : AppState × Bool :=
  if !s.mqttClientPresent || !s.mqttConnected then (s, false)
  else if s.imageProcessed && s.configProcessed && s.config.autoShutdownEnabled then
    shutdownSystem s
  else (s, false)

/-- The gate's connectivity condition `this.mqttClient && this.mqttClient.isConnected`. -/
def gateConnected (s : AppState) : Bool :=
  s.mqttClientPresent && s.mqttConnected

/-- Start of `Application.displayImage`: the adapter render for the payload
is issued and becomes in-flight. -/
def displayImageStart (s : AppState) (p : Payload) : AppState :=
  { s with inFlight := s.inFlight ++ [p] }

/-- Completion of an in-flight adapter render (the `await` in
`Application.displayImage` resumes): on success the payload counts as
rendered, `imageProcessed` is set and the shutdown gate re-evaluated; on
failure the error is caught and the asset dropped. -/
def renderComplete (success : Bool) (s : AppState) : AppState :=
  match s.inFlight with
  | [] => s
  | p :: rest =>
    if success then
      (checkAutoShutdown
        { s with inFlight := rest, rendered := s.rendered ++ [p],
                 imageProcessed := true }).1
    else { s with inFlight := rest }

/-- Model of `Application.handleImageMessage`: buffer the payload while the
display is not initialized, otherwise render it immediately. -/
def handleImageMessage (s : AppState) (p : Payload) : AppState :=
  if !s.displayInitialized then { s with bufferedImage := some p }
  else displayImageStart s p

/-- Model of `Application.processBufferedImage`: when the display is
initialized and a buffered image exists, clear the slot and render it. -/
def processBufferedImage (s : AppState) : AppState :=
  if s.displayInitialized then
    match s.bufferedImage with
    | some p => displayImageStart { s with bufferedImage := none } p
    | none => s
  else s

/-- Completion of `Application.initDisplayAsync`: the display becomes
initialized and the buffer is drained (first drain call site). -/
def displayReadyStep (s : AppState) : AppState :=
  processBufferedImage { s with displayInitialized := true }

/-- Brightness pre-processing at the top of `Application.handleConfigMessage`:
a present `display.brightness` is replaced by its `parseFloat` value when
numeric; otherwise a present top-level `brightness` is parsed and moved
into the `display` object. -/
def preprocessConfig (configData : JSValue) : JSValue :=
  let d := getProp configData "display"
  if truthy d && !isUndefined (getProp d "brightness") then
    match parseFloatJS (getProp d "brightness") with
    | some q => setProp configData "display" (setProp d "brightness" (.num q))
    | none => configData
  else if !isUndefined (getProp configData "brightness") then
    match parseFloatJS (getProp configData "brightness") with
    | some q =>
      let d' := if truthy d then d else .obj []
      setProp configData "display" (setProp d' "brightness" (.num q))
    | none => configData
  else configData

/-- Model of `Application.handleConfigMessage` on an already-parsed payload:
pre-process the brightness field, apply `updateConfig`, mark
`configProcessed` and re-evaluate the shutdown gate. -/
def handleConfigMessage (s : AppState) (configData : JSValue) : AppState :=
  let d := preprocessConfig configData
  (checkAutoShutdown
    { s with config := updateConfig s.config d, configProcessed := true }).1

end App

/-! ### MQTTClient message dispatch (src/mqtt/MQTTClient.js) -/

/-- Whole-system state: the application state plus the module-level
`latestImageBuffer` / `imageReceived` globals of `MQTTClient.js`. -/
structure SysState where
  app : AppState
  latestImageBuffer : Option Payload
  imageReceived : Bool

/-- Split a character list at every occurrence of a separator, keeping
empty segments — the behaviour of JavaScript `String.prototype.split` with
a single-character separator. -/
def splitOnChar (sep : Char) : List Char → List (List Char)
  | [] => [[]]
  | c :: rest =>
    let r := splitOnChar sep rest
    if c = sep then [] :: r
    else
      match r with
      | [] => [[c]]
      | h :: t => (c :: h) :: t

/-- Model of `MQTTClient.extractDeviceIdFromTopic`: the second segment of a
slash-separated topic with at least three segments, else `"unknown"`. -/
def extractDeviceIdFromTopic (topic : String) : String :=
  let parts := (splitOnChar '/' topic.toList).map (fun cs => String.mk cs)
  if 3 ≤ parts.length then parts.getD 1 "unknown" else "unknown"

namespace MQTT

/-- Model of `MQTTClient.handleImageMessage`: drop the message when the
topic's device id differs from the local one, otherwise record it in the
module-level buffer and forward it to the application handler. -/
def handleImageMessage (topic : String) (message : Payload) (s : SysState) : SysState :=
  if extractDeviceIdFromTopic topic ≠ s.app.config.deviceId then s
  else
    { s with latestImageBuffer := some message, imageReceived := true,
             app := App.handleImageMessage s.app message }

/-- Model of `MQTTClient.handleConfigMessage` on an already-parsed payload:
drop the message on device-id mismatch, otherwise forward it to the
application handler. -/
def handleConfigMessage (topic : String) (message : JSValue) (s : SysState) : SysState :=
  if extractDeviceIdFromTopic topic ≠ s.app.config.deviceId then s
  else { s with app := App.handleConfigMessage s.app message }

end MQTT

/-! ### MQTTClient connection and subscription (src/mqtt/MQTTClient.js) -/

/-- Result of a `connect()` call: either a (possibly pending) promise object
identified by an allocation id, or a fresh already-resolved promise
(`Promise.resolve()`). -/
inductive ConnectResult where
  | promise (id : Nat)
  | resolvedNew

/-- State of an `MQTTClient` instance together with the module-level
globals of `MQTTClient.js`: the instance's `connectionPromise` and the
global `globalConnectionPromise` are promise allocation ids; `attempts`
mirrors `connectionStats.attempts` and `mqttConnectCalls` counts calls to
the underlying `mqtt.connect` transport constructor.  `networkSubscribes`
logs every `client.subscribe` network call and `pendingAcks` the subscribe
callbacks that have not fired yet. -/
structure MqttState where
  connectionPromise : Option Nat
  globalConnectionPromise : Option Nat
  globalClientTimestamp : Nat
  now : Nat
  clientExists : Bool
  clientConnected : Bool
  isConnected : Bool
  attempts : Nat
  mqttConnectCalls : Nat
  nextPromiseId : Nat
  imageDisplayTopic : String
  configTopic : String
  topicsSubscribed : List String
  networkSubscribes : List String
  pendingAcks : List String

namespace MQTT

/-- Model of `MQTTClient.subscribeToTopicsFast`: for each of the image and
config topics, when the topic is not in `topicsSubscribed`, issue a network
subscribe whose acknowledgment callback is still pending; the set itself is
only updated when that callback later fires. -/
def subscribeToTopicsFast (s : MqttState) : MqttState :=
  let s1 :=
    if !s.topicsSubscribed.contains s.imageDisplayTopic then
      { s with networkSubscribes := s.networkSubscribes ++ [s.imageDisplayTopic],
               pendingAcks := s.pendingAcks ++ [s.imageDisplayTopic] }
    else s
  if !s1.topicsSubscribed.contains s1.configTopic then
    { s1 with networkSubscribes := s1.networkSubscribes ++ [s1.configTopic],
              pendingAcks := s1.pendingAcks ++ [s1.configTopic] }
  else s1

/-- Firing of a pending `client.subscribe` callback for topic `t`: on
success (`err` absent) the topic is added to `topicsSubscribed`. -/
def ackSubscribe (t : String) (success : Bool) (s : MqttState) : MqttState :=
  if s.pendingAcks.contains t then
    let s1 := { s with pendingAcks := s.pendingAcks.erase t }
    if success && !s1.topicsSubscribed.contains t then
      { s1 with topicsSubscribed := s1.topicsSubscribed ++ [t] }
    else s1
  else s

/-- Body of `connect()` after the stale-global-promise check: return the
instance's pending promise if one exists; short-circuit when the client is
already connected; otherwise allocate the connection promise, whose
executor synchronously bumps the attempt counter, calls `mqtt.connect` and
publishes the globals.  The executor runs before the assignment to
`this.connectionPromise`, so the `globalConnectionPromise` it stores is the
pre-call value, `none`. -/
def connectRest (s : MqttState) : MqttState × ConnectResult :=
  match s.connectionPromise with
  | some p => (s, .promise p)
  | none =>
    if s.clientExists && s.clientConnected then
      (subscribeToTopicsFast { s with isConnected := true }, .resolvedNew)
    else
      let p := s.nextPromiseId
      ({ s with attempts := s.attempts + 1,
                mqttConnectCalls := s.mqttConnectCalls + 1,
                clientExists := true,
                globalClientTimestamp := s.now,
                globalConnectionPromise := none,
                connectionPromise := some p,
                nextPromiseId := p + 1 }, .promise p)

/-- Model of `MQTTClient.connect`: reuse a fresh global connection promise
when one exists, otherwise fall through to `connectRest`. -/
def connect (s : MqttState) : MqttState × ConnectResult :=
  match s.globalConnectionPromise with
  | some g =>
    if s.now - s.globalClientTimestamp < 30000 then (s, .promise g)
    else connectRest s
  | none => connectRest s

end MQTT

/-! ### IT8951 display adapter (src/display/adapters/IT8951DisplayAdapter.js) -/

namespace Adapter

/-- Persistent state of the `IT8951DisplayAdapter` instance. -/
structure AdapterState where
  initialized : Bool
  driverAvailable : Bool

/-- Outcome of the `init()` promise. -/
inductive InitOutcome where
  | resolved
  | rejected

/-- Outcome of the `displayImage()` promise. -/
inductive RenderOutcome where
  | resolved
  | rejected

/-- Retry budget of the init loop (`maxAttempts` in `init()`). -/
def maxAttempts : Nat := 3

/-- The `while (attempt <= maxAttempts)` retry loop of `init()`, with
`fuel = maxAttempts - attempt + 1` remaining attempts: a successful
`initializeDisplay` attempt marks the adapter initialized; a failure on the
last attempt falls back to mock mode (`driverAvailable = false`,
`initialized = true`) and still resolves. -/
def initAttemptLoop (attemptSucceeds : Nat → Bool) (s : AdapterState) :
    Nat → Nat → AdapterState × InitOutcome
  | _, 0 => (s, .resolved)
  | attempt, fuel + 1 =>
    if attemptSucceeds attempt then
      ({ s with initialized := true }, .resolved)
    else if fuel = 0 then
      ({ s with driverAvailable := false, initialized := true }, .resolved)
    else initAttemptLoop attemptSucceeds s (attempt + 1) fuel

/-- Model of `IT8951DisplayAdapter.init()`: a no-op when already
initialized; mock mode immediately when the driver binary is absent;
otherwise the bounded retry loop.  `driverFound` is the environment's
answer to `checkDriverAvailability()` and `attemptSucceeds k` whether the
`k`-th `initializeDisplay` attempt exits cleanly. -/
def init (driverFound : Bool) (attemptSucceeds : Nat → Bool) (s : AdapterState) :
    AdapterState × InitOutcome :=
  if s.initialized then (s, .resolved)
  else
    let s1 := { s with driverAvailable := driverFound }
    if !driverFound then
      ({ s1 with initialized := true }, .resolved)
    else
      initAttemptLoop attemptSucceeds s1 1 maxAttempts

/-- Model of `IT8951DisplayAdapter.displayImage`: initialize first when
needed; in mock mode (`driverAvailable = false`) resolve without touching
the hardware; otherwise resolve or reject according to the render child
process's exit code. -/
def displayImage (driverFound : Bool) (attemptSucceeds : Nat → Bool)
    (renderExitCode : Nat) (s : AdapterState) : AdapterState × RenderOutcome :=
  let s1 := if s.initialized then s else (init driverFound attemptSucceeds s).1
  if !s1.driverAvailable then (s1, .resolved)
  else if renderExitCode = 0 then (s1, .resolved)
  else (s1, .rejected)

end Adapter

/-- Repeated evaluation of the shutdown gate: `n` successive calls of
`checkAutoShutdown`, returning the final state and the number of
evaluations that actually fired the shutdown sequence. -/
def evalGateN : Nat → AppState → AppState × Nat
  | 0, s => (s, 0)
  | n + 1, s =>
    let r := App.checkAutoShutdown s
    let rest := evalGateN n r.1
    (rest.1, (if r.2 then 1 else 0) + rest.2)

/-! ### Concrete states used by counterexamples and witnesses -/

/-- A config state as produced at startup (device id from the environment,
lazily-initialized sections at their defaults). -/
def cs0 : ConfigState :=
  { deviceId := "abc", display := initialDisplay,
    autoShutdownEnabled := false, gpio := [] }

/-- The same config state with the auto-shutdown flag armed. -/
def csArmed : ConfigState := { cs0 with autoShutdownEnabled := true }

/-- An application state in which the display is initialized, an image and
a config update have been processed, the client is connected and the
auto-shutdown flag is armed, with the shutdown latch still open. -/
def appArmed : AppState :=
  { displayInitialized := true, imageProcessed := true, configProcessed := true,
    shuttingDown := false, mqttClientPresent := true, mqttConnected := true,
    bufferedImage := none, config := csArmed, inFlight := [], rendered := [] }

/-- An application state at startup: display not yet initialized, nothing
processed, empty buffer. -/
def appStart : AppState :=
  { displayInitialized := false, imageProcessed := false, configProcessed := false,
    shuttingDown := false, mqttClientPresent := true, mqttConnected := false,
    bufferedImage := none, config := cs0, inFlight := [], rendered := [] }

/-- An application state whose display is initialized and idle. -/
def appReady : AppState :=
  { displayInitialized := true, imageProcessed := false, configProcessed := false,
    shuttingDown := false, mqttClientPresent := true, mqttConnected := false,
    bufferedImage := none, config := cs0, inFlight := [], rendered := [] }

/-! ### C1: absent auto-shutdown field -/

/-- C1 counterexample: the claim says an otherwise-valid update that lacks
the auto-shutdown field resets the live flag to `false`.  On the code,
applying `updateConfig` with payload `{display: {brightness: 1}}` to a
state whose flag is `true` leaves the flag `true`: `updateConfig` only
touches `autoShutdown.enabled` when the field is present
(`configData.autoShutdown !== undefined`), so the prior value is carried
over. -/
theorem c1_counterexample :
    (updateConfig csArmed
      (.obj [("display", .obj [("brightness", .num 1)])])).autoShutdownEnabled = true := by
  rfl

/-- C1 (amended): for every config update in which the auto-shutdown field
is absent (`undefined`), `updateConfig` leaves the live auto-shutdown flag
unchanged, whatever its prior value; the flag is only written when the
field is present. -/
theorem c1_amended (cs : ConfigState) (configData : JSValue)
    (h : isUndefined (getProp configData "autoShutdown") = true) :
    (updateConfig cs configData).autoShutdownEnabled = cs.autoShutdownEnabled := by
  unfold updateConfig
  cases hd : truthy (getProp configData "display") <;>
    cases hg : truthy (getProp configData "gpio") <;>
      simp [h, hd, hg]

/-- Witness for `c1_amended` at the concrete counterexample payload. -/
theorem c1_amended_witness :
    isUndefined (getProp
      (JSValue.obj [("display", JSValue.obj [("brightness", JSValue.num 1)])])
      "autoShutdown") = true ∧
    (updateConfig csArmed
      (JSValue.obj [("display", JSValue.obj [("brightness", JSValue.num 1)])])).autoShutdownEnabled
      = csArmed.autoShutdownEnabled :=
  ⟨rfl, c1_amended csArmed _ rfl⟩

/-! ### C2: shutdown gate single fire -/

/-- When all gate conditions hold and the latch is open, one gate
evaluation fires and closes the latch immediately. -/
theorem checkAutoShutdown_fires (s : AppState)
    (hp : s.mqttClientPresent = true) (hm : s.mqttConnected = true)
    (hi : s.imageProcessed = true) (hf : s.configProcessed = true)
    (ha : s.config.autoShutdownEnabled = true) (hs : s.shuttingDown = false) :
    App.checkAutoShutdown s = ({ s with shuttingDown := true }, true) := by
  simp [App.checkAutoShutdown, App.shutdownSystem, hp, hm, hi, hf, ha, hs]

/-- Once the latch is closed, a gate evaluation changes nothing and never
fires. -/
theorem checkAutoShutdown_latched (s : AppState) (hs : s.shuttingDown = true) :
    App.checkAutoShutdown s = (s, false) := by
  unfold App.checkAutoShutdown App.shutdownSystem
  split
  · rfl
  · split
    · simp [hs]
    · rfl

/-- Once the latch is closed, any number of further gate evaluations fires
zero times. -/
theorem evalGateN_latched (n : Nat) (s : AppState) (hs : s.shuttingDown = true) :
    evalGateN n s = (s, 0) := by
  induction n with
  | zero => rfl
  | succ n ih => simp [evalGateN, checkAutoShutdown_latched s hs, ih]

/-- C2: a gate evaluation fires the shutdown sequence iff the client is
connected, the image and config have been processed, the auto-shutdown
flag is set, and the latch is still open; consequently, with all four
conditions continuously true, any positive number of successive gate
evaluations fires the shutdown sequence exactly once. -/
theorem c2_shutdown_single_fire (s : AppState) (n : Nat) :
    ((App.checkAutoShutdown s).2 = true ↔
      (App.gateConnected s = true ∧ s.imageProcessed = true ∧
        s.configProcessed = true ∧ s.config.autoShutdownEnabled = true ∧
        s.shuttingDown = false)) ∧
    (App.gateConnected s = true → s.imageProcessed = true →
      s.configProcessed = true → s.config.autoShutdownEnabled = true →
      s.shuttingDown = false → 1 ≤ n → (evalGateN n s).2 = 1) := by
  constructor
  · cases hp : s.mqttClientPresent <;> cases hm : s.mqttConnected <;>
      cases hi : s.imageProcessed <;> cases hf : s.configProcessed <;>
        cases ha : s.config.autoShutdownEnabled <;> cases hs : s.shuttingDown <;>
          simp [App.checkAutoShutdown, App.shutdownSystem, App.gateConnected,
            hp, hm, hi, hf, ha, hs]
  · intro hc hi hf ha hs hn
    obtain ⟨hp, hm⟩ := Bool.and_eq_true_iff.mp hc
    obtain ⟨m, rfl⟩ : ∃ m, n = m + 1 := ⟨n - 1, by omega⟩
    have hfire := checkAutoShutdown_fires s hp hm hi hf ha hs
    have hlatch := evalGateN_latched m { s with shuttingDown := true } rfl
    simp [evalGateN, hfire, hlatch]

/-- Witness for `c2_shutdown_single_fire`: at a concrete state with all
four conditions true and the latch open, three successive gate evaluations
fire exactly once. -/
theorem c2_witness : (evalGateN 3 appArmed).2 = 1 :=
  (c2_shutdown_single_fire appArmed 3).2 rfl rfl rfl rfl rfl (by decide)

/-! ### C3: latest-wins buffering while the display is not ready -/

/-- The shutdown gate never touches the rendered list. -/
theorem checkAutoShutdown_rendered (s : AppState) :
    (App.checkAutoShutdown s).1.rendered = s.rendered := by
  unfold App.checkAutoShutdown App.shutdownSystem
  split
  · rfl
  · split
    · split <;> rfl
    · rfl

/-- The shutdown gate never touches the in-flight render queue. -/
theorem checkAutoShutdown_inFlight (s : AppState) :
    (App.checkAutoShutdown s).1.inFlight = s.inFlight := by
  unfold App.checkAutoShutdown App.shutdownSystem
  split
  · rfl
  · split
    · split <;> rfl
    · rfl

/-- The shutdown gate never touches the image buffer slot. -/
theorem checkAutoShutdown_bufferedImage (s : AppState) :
    (App.checkAutoShutdown s).1.bufferedImage = s.bufferedImage := by
  unfold App.checkAutoShutdown App.shutdownSystem
  split
  · rfl
  · split
    · split <;> rfl
    · rfl

/-- While the display is not initialized, a sequence of image-message
arrivals only rewrites the single buffer slot, ending with the last
arrival. -/
theorem foldl_handleImageMessage_not_ready (p : Payload) (ps : List Payload)
    (s : AppState) (h : s.displayInitialized = false) :
    (p :: ps).foldl App.handleImageMessage s =
      { s with bufferedImage := some ((p :: ps).getLast (List.cons_ne_nil p ps)) } := by
  induction ps generalizing p s with
  | nil => simp [App.handleImageMessage, h, List.getLast]
  | cons q qs ih =>
    have hstep : App.handleImageMessage s p = { s with bufferedImage := some p } := by
      simp [App.handleImageMessage, h]
    have h1 : ({ s with bufferedImage := some p } : AppState).displayInitialized = false := h
    calc (p :: q :: qs).foldl App.handleImageMessage s
        = (q :: qs).foldl App.handleImageMessage { s with bufferedImage := some p } := by
          rw [List.foldl_cons, hstep]
      _ = { s with
            bufferedImage := some ((q :: qs).getLast (List.cons_ne_nil q qs)) } := ih q _ h1
      _ = { s with
            bufferedImage :=
              some ((p :: q :: qs).getLast (List.cons_ne_nil p (q :: qs))) } := by
          rw [List.getLast_cons (List.cons_ne_nil q qs)]

/-- C3: for a nonempty sequence of asset arrivals while the display is not
initialized, the buffer slot ends holding exactly the last arrival; after
the display becomes ready the slot is drained, the second drain call (from
the post-startup path) finds the slot empty, and completing the render
yields exactly one rendered asset, the last arrival. -/
theorem c3_latest_wins (ps : List Payload) (h : ps ≠ []) (s : AppState)
    (h1 : s.displayInitialized = false) (h3 : s.inFlight = [])
    (h4 : s.rendered = []) :
    ((ps.foldl App.handleImageMessage s).bufferedImage = some (ps.getLast h)) ∧
    ((App.processBufferedImage
        (App.displayReadyStep (ps.foldl App.handleImageMessage s))).bufferedImage
      = none) ∧
    ((App.renderComplete true (App.processBufferedImage
        (App.displayReadyStep (ps.foldl App.handleImageMessage s)))).rendered
      = [ps.getLast h]) ∧
    ((App.renderComplete true (App.processBufferedImage
        (App.displayReadyStep (ps.foldl App.handleImageMessage s)))).inFlight
      = []) := by
  obtain ⟨p, ps', rfl⟩ : ∃ p ps', ps = p :: ps' := by
    cases ps with
    | nil => exact absurd rfl h
    | cons p ps' => exact ⟨p, ps', rfl⟩
  rw [foldl_handleImageMessage_not_ready p ps' s h1]
  refine ⟨rfl, ?_, ?_, ?_⟩ <;>
    simp [App.displayReadyStep, App.processBufferedImage, App.displayImageStart,
      App.renderComplete, h3, h4, checkAutoShutdown_rendered,
      checkAutoShutdown_inFlight, checkAutoShutdown_bufferedImage]

/-- Witness for `c3_latest_wins` at the concrete arrival sequence
`[[1], [2], [3]]` from an uninitialized start state: the buffer ends with
`[3]` and exactly `[3]` is rendered. -/
theorem c3_witness :
    ((([[1], [2], [3]] : List Payload).foldl App.handleImageMessage appStart).bufferedImage
      = some [3]) ∧
    ((App.renderComplete true (App.processBufferedImage (App.displayReadyStep
        (([[1], [2], [3]] : List Payload).foldl App.handleImageMessage appStart)))).rendered
      = [[3]]) :=
  ⟨(c3_latest_wins [[1], [2], [3]] (by decide) appStart rfl rfl rfl).1,
    (c3_latest_wins [[1], [2], [3]] (by decide) appStart rfl rfl rfl).2.2.1⟩

/-! ### C4: no busy-flag render collapsing in the code -/

/-- C4 counterexample: the claim says an asset arriving while a render is
in flight is written into the buffer slot rather than started as a second
concurrent render, and that a superseded first asset is never rendered.
On the code, `handleImageMessage` only checks `displayInitialized`: with
the display initialized, a second arrival before the first render completes
starts a second concurrent render (two renders in flight, nothing
buffered), and the first asset is still rendered when its render
completes. -/
theorem c4_counterexample :
    ((App.handleImageMessage (App.handleImageMessage appReady [1]) [2]).inFlight
      = [[1], [2]]) ∧
    ((App.handleImageMessage (App.handleImageMessage appReady [1]) [2]).bufferedImage
      = none) ∧
    ((App.renderComplete true (App.renderComplete true
        (App.handleImageMessage (App.handleImageMessage appReady [1]) [2]))).rendered
      = [[1], [2]]) := by
  exact ⟨rfl, rfl, rfl⟩

/-- C4 (amended): the code has no busy-flag gating: once the display is
initialized, every arriving asset immediately starts its own render — an
arrival during an in-flight render is appended to the in-flight renders
rather than buffered, so multiple renders can be concurrently in flight
and superseded assets are still rendered; the single-slot buffer is used
only while the display is uninitialized. -/
theorem c4_amended (s : AppState) (p : Payload) (h : s.displayInitialized = true) :
    (App.handleImageMessage s p).inFlight = s.inFlight ++ [p] ∧
    (App.handleImageMessage s p).bufferedImage = s.bufferedImage := by
  simp [App.handleImageMessage, App.displayImageStart, h]

/-- Witness for `c4_amended` at a concrete initialized state. -/
theorem c4_amended_witness :
    appReady.displayInitialized = true ∧
    ((App.handleImageMessage appReady [5]).inFlight = appReady.inFlight ++ [[5]] ∧
      (App.handleImageMessage appReady [5]).bufferedImage = appReady.bufferedImage) :=
  ⟨rfl, c4_amended appReady [5] rfl⟩

/-! ### C5: identity filtering -/

/-- A whole-system start state. -/
def sys0 : SysState :=
  { app := appStart, latestImageBuffer := none, imageReceived := false }

/-- C5: a message whose topic device segment differs from the local device
identity is dropped by both MQTT handlers with no state change anywhere:
the asset buffer, the config store, the gate booleans and the display
state are all untouched. -/
theorem c5_identity_filtering (s : SysState) (topic : String) (msg : Payload)
    (d : JSValue) (h : extractDeviceIdFromTopic topic ≠ s.app.config.deviceId) :
    MQTT.handleImageMessage topic msg s = s ∧
    MQTT.handleConfigMessage topic d s = s := by
  constructor <;> simp [MQTT.handleImageMessage, MQTT.handleConfigMessage, h]

/-- Witness for `c5_identity_filtering` at a concrete mismatched topic
(`device/other/config` against local id `abc`). -/
theorem c5_witness :
    MQTT.handleImageMessage "device/other/config" [1] sys0 = sys0 ∧
    MQTT.handleConfigMessage "device/other/config" (.obj []) sys0 = sys0 :=
  c5_identity_filtering sys0 "device/other/config" [1] (.obj []) (by decide)

/-! ### C7: connect idempotence -/

/-- A fresh `MQTTClient` instance state (no client, no promises, counters
zero). -/
def mqttFresh : MqttState :=
  { connectionPromise := none, globalConnectionPromise := none,
    globalClientTimestamp := 0, now := 0, clientExists := false,
    clientConnected := false, isConnected := false, attempts := 0,
    mqttConnectCalls := 0, nextPromiseId := 0,
    imageDisplayTopic := "einkframe/image/display",
    configTopic := "device/abc/config",
    topicsSubscribed := [], networkSubscribes := [], pendingAcks := [] }

/-- C7: calling `connect()` on a not-yet-connected client creates one
pending connection promise and one underlying transport connection; a
second call while that attempt is still outstanding returns the same
promise and leaves the state unchanged, so two concurrent `connect()`
calls before resolution yield exactly one underlying connection attempt. -/
theorem c7_connect_idempotent (s : MqttState)
    (h1 : s.globalConnectionPromise = none)
    (h2 : s.connectionPromise = none)
    (h3 : s.clientConnected = false) :
    ((MQTT.connect s).2 = ConnectResult.promise s.nextPromiseId) ∧
    (MQTT.connect (MQTT.connect s).1 = ((MQTT.connect s).1, (MQTT.connect s).2)) ∧
    ((MQTT.connect (MQTT.connect s).1).1.mqttConnectCalls
      = s.mqttConnectCalls + 1) := by
  simp [MQTT.connect, MQTT.connectRest, h1, h2, h3]

/-- Witness for `c7_connect_idempotent` at a fresh client state. -/
theorem c7_witness :
    ((MQTT.connect mqttFresh).2 = ConnectResult.promise 0) ∧
    (MQTT.connect (MQTT.connect mqttFresh).1
      = ((MQTT.connect mqttFresh).1, (MQTT.connect mqttFresh).2)) ∧
    ((MQTT.connect (MQTT.connect mqttFresh).1).1.mqttConnectCalls = 1) :=
  c7_connect_idempotent mqttFresh rfl rfl rfl

/-! ### C8: subscribe under overlapping calls -/

/-- C8 failing-input evidence: two calls of `subscribeToTopicsFast` before
the first subscribe acknowledgment arrives.  Because a topic is added to
`topicsSubscribed` only inside the acknowledgment callback, the second
call still sees an empty set and issues a second network subscribe for
each topic — the image topic appears twice in the network-call log,
contradicting the claimed no-duplicate guarantee under overlap (the set
itself still ends with one entry per topic once the callbacks fire). -/
theorem c8_duplicate_network_subscribe :
    ((MQTT.subscribeToTopicsFast (MQTT.subscribeToTopicsFast mqttFresh)).networkSubscribes
      = ["einkframe/image/display", "device/abc/config",
         "einkframe/image/display", "device/abc/config"]) ∧
    ((MQTT.subscribeToTopicsFast mqttFresh).topicsSubscribed = []) ∧
    ((MQTT.ackSubscribe "einkframe/image/display" true
        (MQTT.ackSubscribe "einkframe/image/display" true
          (MQTT.ackSubscribe "device/abc/config" true
            (MQTT.ackSubscribe "device/abc/config" true
              (MQTT.subscribeToTopicsFast
                (MQTT.subscribeToTopicsFast mqttFresh)))))).topicsSubscribed
      = ["device/abc/config", "einkframe/image/display"]) := by
  exact ⟨rfl, rfl, rfl⟩

/-! ### C9: degraded-mode continuity -/

/-- A freshly constructed adapter state. -/
def adapterFresh : Adapter.AdapterState :=
  { initialized := false, driverAvailable := false }

/-- C9: when the driver binary is present but every one of the three
initialization attempts fails, `init()` still resolves (no error is
propagated), the adapter falls back to mock mode and is marked
initialized, and every subsequent `displayImage` call resolves without
rejecting, whatever the render environment would have answered. -/
theorem c9_degraded_mode (s : Adapter.AdapterState) (h : s.initialized = false)
    (exitCode : Nat) :
    ((Adapter.init true (fun _ => false) s).2 = Adapter.InitOutcome.resolved) ∧
    ((Adapter.init true (fun _ => false) s).1.initialized = true) ∧
    ((Adapter.init true (fun _ => false) s).1.driverAvailable = false) ∧
    ((Adapter.displayImage true (fun _ => false) exitCode
        (Adapter.init true (fun _ => false) s).1).2
      = Adapter.RenderOutcome.resolved) := by
  simp [Adapter.init, Adapter.initAttemptLoop, Adapter.maxAttempts,
    Adapter.displayImage, h]

/-- Witness for `c9_degraded_mode` at a fresh adapter state and a failing
render exit code. -/
theorem c9_witness :
    ((Adapter.init true (fun _ => false) adapterFresh).1.initialized = true) ∧
    ((Adapter.displayImage true (fun _ => false) 1
        (Adapter.init true (fun _ => false) adapterFresh).1).2
      = Adapter.RenderOutcome.resolved) :=
  ⟨(c9_degraded_mode adapterFresh rfl 1).2.1,
    (c9_degraded_mode adapterFresh rfl 1).2.2.2⟩

/-! ### C6: brightness handling -/

/-- Looking up the key just written by `setField` yields the new value. -/
theorem lookupField_setField_self (fields : List (String × JSValue))
    (k : String) (v : JSValue) :
    lookupField (setField fields k v) k = some v := by
  induction fields with
  | nil => simp [setField, lookupField]
  | cons kv rest ih =>
    obtain ⟨k', v'⟩ := kv
    by_cases hk : k' = k
    · simp [setField, lookupField, hk]
    · simp [setField, lookupField, hk, ih]

/-- Writing one key leaves lookups of other keys unchanged. -/
theorem lookupField_setField_ne (fields : List (String × JSValue))
    (k k' : String) (v : JSValue) (h : k' ≠ k) :
    lookupField (setField fields k' v) k = lookupField fields k := by
  induction fields with
  | nil => simp [setField, lookupField, h]
  | cons kv rest ih =>
    obtain ⟨k0, v0⟩ := kv
    by_cases h0 : k0 = k'
    · subst h0
      simp [setField, lookupField, h]
    · by_cases hkk : k0 = k
      · subst hkk
        simp [setField, lookupField, h0, Ne.symm h]
      · simp [setField, lookupField, h0, hkk, ih]

/-- A key that does not occur in a field list is not found. -/
theorem lookupField_eq_none (fields : List (String × JSValue)) (k : String)
    (h : k ∉ fields.map Prod.fst) :
    lookupField fields k = none := by
  induction fields with
  | nil => rfl
  | cons kv rest ih =>
    obtain ⟨k0, v0⟩ := kv
    simp only [List.map_cons, List.mem_cons] at h
    push_neg at h
    have hne : k0 ≠ k := fun hk => h.1 hk.symm
    simp [lookupField, hne, ih h.2]

/-- Folding `setField` over source pairs none of which bind `k` preserves
the lookup of `k`. -/
theorem lookupField_assignList_not_mem (src tgt : List (String × JSValue))
    (k : String) (h : k ∉ src.map Prod.fst) :
    lookupField (src.foldl (fun t kv => setField t kv.1 kv.2) tgt) k
      = lookupField tgt k := by
  induction src generalizing tgt with
  | nil => rfl
  | cons kv rest ih =>
    obtain ⟨k0, v0⟩ := kv
    simp only [List.map_cons, List.mem_cons] at h
    push_neg at h
    rw [List.foldl_cons, ih _ h.2,
      lookupField_setField_ne _ _ _ _ (fun hk : k0 = k => h.1 hk.symm)]

/-- Folding `setField` over a duplicate-free source installs each source
binding: afterwards, `k` looks up to its (unique) source value. -/
theorem lookupField_assignList_mem (src tgt : List (String × JSValue))
    (k : String) (v : JSValue) (hnd : (src.map Prod.fst).Nodup)
    (hl : lookupField src k = some v) :
    lookupField (src.foldl (fun t kv => setField t kv.1 kv.2) tgt) k = some v := by
  induction src generalizing tgt with
  | nil => simp [lookupField] at hl
  | cons kv rest ih =>
    obtain ⟨k0, v0⟩ := kv
    simp only [List.map_cons, List.nodup_cons] at hnd
    by_cases hk : k0 = k
    · subst hk
      have hv : v0 = v := by simpa [lookupField] using hl
      subst hv
      rw [List.foldl_cons, lookupField_assignList_not_mem rest _ k0 hnd.1]
      exact lookupField_setField_self tgt k0 v0
    · have hl' : lookupField rest k = some v := by simpa [lookupField, hk] using hl
      rw [List.foldl_cons]
      exact ih _ hnd.2 hl'

/-- Key list of a `setField` result: unchanged when the key was present,
extended by the key otherwise. -/
theorem setField_map_fst (fields : List (String × JSValue)) (k : String)
    (v : JSValue) :
    (setField fields k v).map Prod.fst
      = if k ∈ fields.map Prod.fst then fields.map Prod.fst
        else fields.map Prod.fst ++ [k] := by
  induction fields with
  | nil => simp [setField]
  | cons kv rest ih =>
    obtain ⟨k0, v0⟩ := kv
    by_cases hk : k0 = k
    · subst hk
      simp [setField]
    · have hne : k ≠ k0 := fun h => hk h.symm
      by_cases hm : k ∈ rest.map Prod.fst
      · simp [setField, hk, ih, hm, hne]
      · simp [setField, hk, ih, hm, hne]

/-- `setField` preserves duplicate-freeness of the key list. -/
theorem setField_nodup (fields : List (String × JSValue)) (k : String)
    (v : JSValue) (h : (fields.map Prod.fst).Nodup) :
    ((setField fields k v).map Prod.fst).Nodup := by
  rw [setField_map_fst]
  split
  · exact h
  · next hm =>
    refine List.Nodup.append h (List.nodup_singleton k) ?_
    intro x hx hk'
    simp only [List.mem_singleton] at hk'
    subst hk'
    exact hm hx

/-- The `display` store after `updateConfig`: merged with the update's
`display` value when that value is truthy, untouched otherwise. -/
theorem updateConfig_display (cs : ConfigState) (cd : JSValue) :
    (updateConfig cs cd).display =
      if truthy (getProp cd "display") then
        objAssign cs.display (getProp cd "display")
      else cs.display := by
  unfold updateConfig
  cases hA : isUndefined (getProp cd "autoShutdown") <;>
    cases hg : truthy (getProp cd "gpio") <;>
      cases hdp : truthy (getProp cd "display") <;> simp [hA, hg, hdp]

/-- The shutdown gate never touches the config store. -/
theorem checkAutoShutdown_config (s : AppState) :
    (App.checkAutoShutdown s).1.config = s.config := by
  unfold App.checkAutoShutdown App.shutdownSystem
  split
  · rfl
  · split
    · split <;> rfl
    · rfl

/-- The config store after `handleConfigMessage` is exactly `updateConfig`
applied to the brightness-preprocessed payload. -/
theorem handleConfigMessage_config (s : AppState) (d : JSValue) :
    (App.handleConfigMessage s d).config
      = updateConfig s.config (App.preprocessConfig d) := by
  unfold App.handleConfigMessage
  exact checkAutoShutdown_config _

/-- Stored brightness after merging an update whose `display` value is an
object with duplicate-free keys binding `"brightness"` to `v`. -/
theorem storedBrightness_updateConfig_obj (cs : ConfigState) (cd : JSValue)
    (fields : List (String × JSValue)) (v : JSValue)
    (hd : getProp cd "display" = .obj fields)
    (hnd : (fields.map Prod.fst).Nodup)
    (hv : lookupField fields "brightness" = some v) :
    storedBrightness (updateConfig cs cd) = v := by
  have hdisp : (updateConfig cs cd).display = objAssign cs.display (.obj fields) := by
    rw [updateConfig_display, hd]
    simp [truthy]
  unfold storedBrightness
  rw [hdisp]
  simp only [objAssign, ownEnumerableProps]
  rw [lookupField_assignList_mem fields cs.display "brightness" v hnd hv]
  rfl

/-- Stored brightness is retained when the update's `display` value has no
own `"brightness"` property. -/
theorem storedBrightness_updateConfig_not_mem (cs : ConfigState) (cd : JSValue)
    (h : "brightness" ∉ (ownEnumerableProps (getProp cd "display")).map Prod.fst) :
    storedBrightness (updateConfig cs cd) = storedBrightness cs := by
  unfold storedBrightness
  rw [updateConfig_display]
  split
  · simp only [objAssign]
    rw [lookupField_assignList_not_mem _ _ _ h]
  · rfl

/-- A value with a numeric `parseFloat` is not `undefined`. -/
theorem isUndefined_false_of_parse_some (v : JSValue) (q : ℚ)
    (h : parseFloatJS v = some q) : isUndefined v = false := by
  cases v <;> first | rfl | simp [parseFloatJS] at h

/-- C6 counterexample: the claim says a present numeric brightness is
clamped to the valid range and a present non-numeric brightness is dropped
with the prior value retained.  On the code, neither holds: the update
`{display: {brightness: "abc"}}` overwrites the stored brightness (1) with
the raw string `"abc"` (the `parseFloat` guard only rewrites the field
when parsing succeeds, and `Object.assign` then copies the malformed value
verbatim), and the update `{display: {brightness: -1}}` stores `-1`
unclamped — a value the code's own `setBrightness` guard (`brightness >= 0`,
documented range 0.0–2.0) rejects as invalid. -/
theorem c6_counterexample :
    (storedBrightness appStart.config = JSValue.num 1) ∧
    (storedBrightness (App.handleConfigMessage appStart
        (.obj [("display", .obj [("brightness", .str "abc")])])).config
      = JSValue.str "abc") ∧
    (storedBrightness (App.handleConfigMessage appStart
        (.obj [("display", .obj [("brightness", .num (-1))])])).config
      = JSValue.num (-1)) := by
  exact ⟨rfl, rfl, rfl⟩

/-- C6 (amended): for every config update (with a JSON-shaped payload:
the `display` value, when present, is an object with duplicate-free keys):
a present `display.brightness` whose `parseFloat` is numeric is stored
exactly as parsed, with no clamping; a present but non-numeric
`display.brightness` is not dropped — its raw value overwrites the stored
brightness; when the update carries no own brightness property (and any
top-level `brightness` is non-numeric or absent), the stored value is
retained; and a numeric top-level `brightness` (with `display` absent) is
moved into the display store as parsed. -/
theorem c6_brightness_amended (s : AppState) (d : JSValue) :
    (∀ fields bv q, getProp d "display" = .obj fields →
      (fields.map Prod.fst).Nodup →
      lookupField fields "brightness" = some bv →
      parseFloatJS bv = some q →
      storedBrightness (App.handleConfigMessage s d).config = .num q) ∧
    (∀ fields m, getProp d "display" = .obj fields →
      (fields.map Prod.fst).Nodup →
      lookupField fields "brightness" = some m →
      isUndefined m = false →
      parseFloatJS m = none →
      storedBrightness (App.handleConfigMessage s d).config = m) ∧
    ("brightness" ∉ (ownEnumerableProps (getProp d "display")).map Prod.fst →
      parseFloatJS (getProp d "brightness") = none →
      storedBrightness (App.handleConfigMessage s d).config
        = storedBrightness s.config) ∧
    (∀ q, getProp d "display" = .undefined →
      isUndefined (getProp d "brightness") = false →
      parseFloatJS (getProp d "brightness") = some q →
      storedBrightness (App.handleConfigMessage s d).config = .num q) := by
  refine ⟨?_, ?_, ?_, ?_⟩
  · -- present numeric display.brightness: stored as parsed, unclamped
    intro fields bv q hd hnd hlk hpq
    obtain ⟨dFields, rfl⟩ : ∃ df, d = JSValue.obj df := by
      cases d <;> simp [getProp] at hd ⊢
    have hgp : getProp (JSValue.obj fields) "brightness" = bv := by
      simp [getProp, hlk]
    have hpre : App.preprocessConfig (JSValue.obj dFields)
        = JSValue.obj (setField dFields "display"
            (JSValue.obj (setField fields "brightness" (JSValue.num q)))) := by
      simp only [App.preprocessConfig, hd, hgp,
        isUndefined_false_of_parse_some bv q hpq, hpq]
      simp [truthy, setProp]
    rw [handleConfigMessage_config, hpre]
    exact storedBrightness_updateConfig_obj s.config _ _ _
      (by simp [getProp, lookupField_setField_self])
      (setField_nodup _ _ _ hnd)
      (lookupField_setField_self _ _ _)
  · -- present non-numeric display.brightness: raw value overwrites
    intro fields m hd hnd hlk hmu hpn
    obtain ⟨dFields, rfl⟩ : ∃ df, d = JSValue.obj df := by
      cases d <;> simp [getProp] at hd ⊢
    have hgp : getProp (JSValue.obj fields) "brightness" = m := by
      simp [getProp, hlk]
    have hpre : App.preprocessConfig (JSValue.obj dFields) = JSValue.obj dFields := by
      simp only [App.preprocessConfig, hd, hgp, hmu, hpn]
      simp [truthy]
    rw [handleConfigMessage_config, hpre]
    exact storedBrightness_updateConfig_obj s.config _ _ _ hd hnd hlk
  · -- no own brightness property anywhere numeric: retained
    intro hnm hpn
    have hbr : getProp (getProp d "display") "brightness" = JSValue.undefined := by
      cases hdd : getProp d "display" <;> try rfl
      next fields =>
        rw [hdd] at hnm
        simp only [getProp, lookupField_eq_none fields "brightness" hnm]
        rfl
    have hpre : App.preprocessConfig d = d := by
      simp only [App.preprocessConfig, hbr]
      cases hU : isUndefined (getProp d "brightness")
      · simp [hU, hpn, isUndefined]
      · simp [hU, isUndefined]
    rw [handleConfigMessage_config, hpre]
    exact storedBrightness_updateConfig_not_mem s.config d hnm
  · -- numeric top-level brightness with display absent: moved and stored
    intro q hdu htu hq
    obtain ⟨dFields, rfl⟩ : ∃ df, d = JSValue.obj df := by
      cases d <;> simp [getProp, isUndefined] at htu ⊢
    have hpre : App.preprocessConfig (JSValue.obj dFields)
        = JSValue.obj (setField dFields "display"
            (JSValue.obj [("brightness", JSValue.num q)])) := by
      simp only [App.preprocessConfig, hdu, htu, hq]
      simp [truthy, isUndefined, setProp, setField]
    rw [handleConfigMessage_config, hpre]
    exact storedBrightness_updateConfig_obj s.config
      (JSValue.obj (setField dFields "display"
        (JSValue.obj [("brightness", JSValue.num q)])))
      [("brightness", JSValue.num q)] (JSValue.num q)
      (by simp [getProp, lookupField_setField_self])
      (by simp)
      rfl

/-- Witness for `c6_brightness_amended`, one payload per clause: a numeric
`display.brightness`, a `null` one, an update touching only `vcom`, and a
numeric top-level `brightness`. -/
theorem c6_witness :
    (storedBrightness (App.handleConfigMessage appStart
        (.obj [("display", .obj [("brightness", .num 2)])])).config
      = JSValue.num 2) ∧
    (storedBrightness (App.handleConfigMessage appStart
        (.obj [("display", .obj [("brightness", .null)])])).config
      = JSValue.null) ∧
    (storedBrightness (App.handleConfigMessage appStart
        (.obj [("display", .obj [("vcom", .num 2)])])).config
      = storedBrightness appStart.config) ∧
    (storedBrightness (App.handleConfigMessage appStart
        (.obj [("brightness", .num 2)])).config
      = JSValue.num 2) :=
  ⟨(c6_brightness_amended appStart _).1 _ _ 2 rfl (by simp) rfl rfl,
   (c6_brightness_amended appStart _).2.1 _ _ rfl (by simp) rfl rfl rfl,
   (c6_brightness_amended appStart _).2.2.1 (by decide) rfl,
   (c6_brightness_amended appStart _).2.2.2 2 rfl rfl rfl⟩

/-! ### C10: strict-equality semantics of the auto-shutdown field -/

/-- Characterization of the strict test `v === true`. -/
theorem strictEqTrue_eq_true_iff (v : JSValue) :
    strictEqTrue v = true ↔ v = .bool true := by
  cases v <;> simp [strictEqTrue]
  case bool b => cases b <;> simp

/-- C10: when the auto-shutdown field is present, `updateConfig` sets
`autoShutdown.enabled` to `true` iff the field's value is exactly the
boolean `true`; any other present value (the string `"true"`, the number
`1`, `null`, ...) sets it to `false`. -/
theorem c10_autoShutdown_strict (cs : ConfigState) (configData : JSValue)
    (h : isUndefined (getProp configData "autoShutdown") = false) :
    ((updateConfig cs configData).autoShutdownEnabled = true ↔
      getProp configData "autoShutdown" = .bool true) := by
  unfold updateConfig
  cases hd : truthy (getProp configData "display") <;>
    cases hg : truthy (getProp configData "gpio") <;>
      simp [h, hd, hg, strictEqTrue_eq_true_iff]

/-- Witness for `c10_autoShutdown_strict` at the payload
`{autoShutdown: "true"}` (a present non-boolean value). -/
theorem c10_witness :
    isUndefined (getProp (JSValue.obj [("autoShutdown", JSValue.str "true")])
      "autoShutdown") = false ∧
    ((updateConfig cs0 (JSValue.obj [("autoShutdown", JSValue.str "true")])).autoShutdownEnabled
        = true ↔
      getProp (JSValue.obj [("autoShutdown", JSValue.str "true")]) "autoShutdown"
        = JSValue.bool true) :=
  ⟨rfl, c10_autoShutdown_strict cs0 _ rfl⟩

end Einkframe
